import Mathlib

/-!
Shallow embedding of the volatility-surface core of the repository
(surface_builder.py, greeks.py, metrics.py).

Conventions of the embedding:
* Quote-table rows become the structure `Quote`; coordinates, quoted IVs and
  day counts are exact rationals (the Python code stores them as floats and
  computes with exact the same formulas).
* `NaN` sentinels of numpy/pandas become `Option` values: `none` is NaN.
* Mathematical functions that the code takes from numpy/scipy but that are
  genuinely real-valued (square root, logarithm) are `Real.sqrt`/`Real.log`;
  the standard-normal CDF and PDF of `scipy.stats.norm` are abstract
  parameters `cdf pdf : ℝ → ℝ`, as no claim depends on their values.
* The SVI least-squares optimizer (`scipy.optimize.minimize`) is an abstract
  parameter `fit`; the structural claims about `create_svi_surface` hold for
  every fit result.
-/

namespace VolSurface

/-- Option side of a quote row (`option_type` column). -/
inductive OptionKind
  | call
  | put
deriving DecidableEq, Repr

/-- One row of the cleaned quote table (the pandas DataFrame columns the
core reads: strike, option_type, mark_iv, moneyness, log_moneyness,
tte_years, tte_days). -/
structure Quote where
  strike : ℚ
  option_type : OptionKind
  mark_iv : ℚ
  moneyness : ℚ
  log_moneyness : ℚ
  tte_years : ℚ
  tte_days : ℚ
deriving DecidableEq, Repr

/-! ### Small list helpers mirroring pandas/numpy reductions -/

/-- Model of `pandas.Series.min` over a column (the callers only use it on nonempty
tables; on the empty table pandas yields NaN, modelled by the default 0,
which no claim depends on). -/
def listMin (l : List ℚ) : ℚ := (l.min?).getD 0

/-- Model of `pandas.Series.max` over a column (default 0 on the empty table). -/
def listMax (l : List ℚ) : ℚ := (l.max?).getD 0

/-- Model of `pandas.Series.mean`: NaN (`none`) on an empty column, else the mean. -/
def listMean (l : List ℚ) : Option ℝ :=
  match l with
  | [] => none
  | _ :: _ => some (((l.sum / l.length : ℚ) : ℝ))

/-- Model of `pandas.Series.median`: NaN on an empty column, else the middle element
of the sorted column (average of the two middles for even length). -/
def listMedian (l : List ℚ) : Option ℝ :=
  match l with
  | [] => none
  | _ :: _ =>
    let s := List.insertionSort (· ≤ ·) l
    let n := l.length
    if n % 2 = 1 then some (((s.getD (n / 2) 0 : ℚ) : ℝ))
    else some ((((s.getD (n / 2 - 1) 0 + s.getD (n / 2) 0) / 2 : ℚ) : ℝ))

/-- Model of `pandas.Series.std` (sample standard deviation, `ddof = 1`): NaN for
fewer than two observations. -/
noncomputable def listStd (l : List ℚ) : Option ℝ :=
  if l.length ≤ 1 then none
  else
    some (Real.sqrt
      ((((l.map (fun x => (x - l.sum / l.length) ^ 2)).sum /
          ((l.length : ℚ) - 1) : ℚ) : ℝ)))

/-- Model of `numpy.linspace lo hi n`: `n` evenly spaced points from `lo` to `hi`
inclusive (for `n = 1` numpy yields `[lo]`; rational division by zero is 0,
which gives the same value). -/
def linspace (lo hi : ℚ) (n : ℕ) : List ℚ :=
  (List.range n).map (fun i : ℕ => lo + (hi - lo) * (i : ℚ) / ((n : ℚ) - 1))

theorem linspace_length (lo hi : ℚ) (n : ℕ) : (linspace lo hi n).length = n := by
  unfold linspace
  rw [List.length_map, List.length_range]

/-! ### Metrics engine (metrics.py, `calculate_surface_metrics`) -/

/-- Quotes within ±5 days of `tenor` (`tenor_df` of the ATM loop). -/
def tenorQuotes (df : List Quote) (tenor : ℚ) : List Quote :=
  df.filter (fun q => decide (tenor - 5 ≤ q.tte_days ∧ q.tte_days ≤ tenor + 5))

/-- Near-the-money quotes of a tenor bucket (`atm_df`). -/
def atmQuotes (df : List Quote) (tenor : ℚ) : List Quote :=
  (tenorQuotes df tenor).filter
    (fun q => decide (98 / 100 ≤ q.moneyness ∧ q.moneyness ≤ 102 / 100))

/-- Value `metrics['atm_iv_<tenor>d']`: mean mark IV of the ATM bucket, NaN if the
bucket is empty. -/
def atm_iv (df : List Quote) (tenor : ℚ) : Option ℝ :=
  listMean ((atmQuotes df tenor).map Quote.mark_iv)

/-- The `put_25d` selection: puts with moneyness in [0.88, 0.92] and
time-to-expiry in [25, 35] days. -/
def put25Quotes (df : List Quote) : List Quote :=
  df.filter (fun q => decide (q.option_type = OptionKind.put ∧
    88 / 100 ≤ q.moneyness ∧ q.moneyness ≤ 92 / 100 ∧
    25 ≤ q.tte_days ∧ q.tte_days ≤ 35))

/-- The `call_25d` selection: calls with moneyness in [1.08, 1.12] and
time-to-expiry in [25, 35] days. -/
def call25Quotes (df : List Quote) : List Quote :=
  df.filter (fun q => decide (q.option_type = OptionKind.call ∧
    108 / 100 ≤ q.moneyness ∧ q.moneyness ≤ 112 / 100 ∧
    25 ≤ q.tte_days ∧ q.tte_days ≤ 35))

/-- Value `metrics['skew_25d']`: mean put-bucket IV minus mean call-bucket IV, NaN
unless both buckets are nonempty. -/
def skew_25d (df : List Quote) : Option ℝ :=
  match listMean ((put25Quotes df).map Quote.mark_iv),
        listMean ((call25Quotes df).map Quote.mark_iv) with
  | some p, some c => some (p - c)
  | _, _ => none

/-- Value `metrics['term_structure_slope']`: `atm_iv_90d - atm_iv_30d` when both
are defined (not NaN), else NaN. -/
def term_structure_slope (df : List Quote) : Option ℝ :=
  match atm_iv df 30, atm_iv df 90 with
  | some a30, some a90 => some (a90 - a30)
  | _, _ => none

/-- The metrics mapping built by `calculate_surface_metrics`, in the
insertion order of the Python dict; `none` is the NaN sentinel. -/
noncomputable def calculate_surface_metrics (df : List Quote) :
    List (String × Option ℝ) :=
  let ivs := df.map Quote.mark_iv
  [("atm_iv_7d", atm_iv df 7),
   ("atm_iv_30d", atm_iv df 30),
   ("atm_iv_60d", atm_iv df 60),
   ("atm_iv_90d", atm_iv df 90),
   ("atm_iv_180d", atm_iv df 180),
   ("skew_25d", skew_25d df),
   ("term_structure_slope", term_structure_slope df),
   ("iv_mean", listMean ivs),
   ("iv_median", listMedian ivs),
   ("iv_std", listStd ivs),
   ("iv_min", (ivs.min?).map (fun x => (x : ℝ))),
   ("iv_max", (ivs.max?).map (fun x => (x : ℝ)))]

/-! ### SVI builder (surface_builder.py) -/

/-- The SVI parameter 5-tuple `(a, b, rho, m, sigma)` returned by
`fit_svi_slice` (a float vector `result.x`). -/
structure SviParams where
  a : ℝ
  b : ℝ
  rho : ℝ
  m : ℝ
  sigma : ℝ

/-- Function `svi_parametrization`: SVI total variance
`a + b * (rho * (k - m) + sqrt((k - m)^2 + sigma^2))`. -/
noncomputable def svi_parametrization (k a b rho m sigma : ℝ) : ℝ :=
  a + b * (rho * (k - m) + Real.sqrt ((k - m) ^ 2 + sigma ^ 2))

/-- Type of the per-slice optimizer `fit_svi_slice` (log-strikes, IVs, tte ↦
parameters). The optimization itself happens inside `scipy.optimize.minimize`;
the builder's structure is proved for every fit function. -/
def SviFit : Type := List ℚ → List ℚ → ℚ → SviParams

/-- The expiration slice `df[df['tte_years'] == tte]`. -/
def quotesAtTte (df : List Quote) (t : ℚ) : List Quote :=
  df.filter (fun q => decide (q.tte_years = t))

/-- Model of `sorted(df['tte_years'].unique())`: distinct expirations ascending. -/
def expirationsSorted (df : List Quote) : List ℚ :=
  List.insertionSort (· ≤ ·) ((df.map Quote.tte_years).dedup)

/-- The expirations that get an SVI fit: distinct values whose slice has at
least 5 quotes (slices with fewer hit `continue`). -/
def fittedTtes (df : List Quote) : List ℚ :=
  (expirationsSorted df).filter (fun t => decide (5 ≤ (quotesAtTte df t).length))

/-- The `svi_params` dict: one entry per fitted expiration, in ascending
key order, holding the optimizer's output for that slice. -/
def svi_params_list (fit : SviFit) (df : List Quote) : List (ℚ × SviParams) :=
  (fittedTtes df).map (fun t =>
    (t, fit ((quotesAtTte df t).map Quote.log_moneyness)
            ((quotesAtTte df t).map Quote.mark_iv) t))

/-- Return value of `create_svi_surface`: the three co-indexed meshes (with
their numpy shape `nrows × ncols` carried explicitly) and the fitted
parameter map. -/
structure SviSurface where
  nrows : ℕ
  ncols : ℕ
  log_moneyness_mesh : List (List ℚ)
  tte_mesh : List (List ℚ)
  iv_surface : List (List ℝ)
  svi_params : List (ℚ × SviParams)

/-- Function `create_svi_surface df grid_size`: fit SVI per expiration slice with at
least 5 quotes, then evaluate one mesh row per fitted slice on a `grid_size`
point log-moneyness grid spanning `[min, max]` of the observed log-moneyness,
recovering IV as `sqrt(w(k) / T)`. -/
noncomputable def create_svi_surface (fit : SviFit) (df : List Quote)
    (grid_size : ℕ) : SviSurface :=
  let grid := linspace (listMin (df.map Quote.log_moneyness))
    (listMax (df.map Quote.log_moneyness)) grid_size
  let ps := svi_params_list fit df
  ⟨ps.length, grid.length,
   ps.map (fun _ => grid),
   ps.map (fun tp => grid.map (fun _ => tp.1)),
   ps.map (fun tp => grid.map (fun k : ℚ =>
     Real.sqrt (svi_parametrization (k : ℝ) tp.2.a tp.2.b tp.2.rho tp.2.m
       tp.2.sigma / (tp.1 : ℝ)))),
   ps⟩

/-! ### Black-Scholes Greeks (greeks.py) -/

/-- Function `calculate_d1_d2`, first component. -/
noncomputable def calculate_d1 (S K T r sigma : ℝ) : ℝ :=
  (Real.log (S / K) + (r + sigma ^ 2 / 2) * T) / (sigma * Real.sqrt T)

/-- Function `calculate_d1_d2`, second component: `d2 = d1 - sigma * sqrt T`. -/
noncomputable def calculate_d2 (S K T r sigma : ℝ) : ℝ :=
  calculate_d1 S K T r sigma - sigma * Real.sqrt T

/-- Function `calculate_delta`: `cdf d1` for calls, `cdf d1 - 1` for puts. The
standard-normal CDF is the abstract argument `cdf` (`scipy.stats.norm`). -/
noncomputable def calculate_delta (cdf : ℝ → ℝ) (S K T r sigma : ℝ) :
    OptionKind → ℝ
  | OptionKind.call => cdf (calculate_d1 S K T r sigma)
  | OptionKind.put => cdf (calculate_d1 S K T r sigma) - 1

/-- Function `calculate_gamma`: `pdf d1 / (S * sigma * sqrt T)`; the function takes no
option type. -/
noncomputable def calculate_gamma (pdf : ℝ → ℝ) (S K T r sigma : ℝ) : ℝ :=
  pdf (calculate_d1 S K T r sigma) / (S * sigma * Real.sqrt T)

/-- Function `calculate_vega`: `S * pdf d1 * sqrt T / 100`; no option type. -/
noncomputable def calculate_vega (pdf : ℝ → ℝ) (S K T r sigma : ℝ) : ℝ :=
  S * pdf (calculate_d1 S K T r sigma) * Real.sqrt T / 100

/-- Function `calculate_theta` (per-day, divided by 365). -/
noncomputable def calculate_theta (cdf pdf : ℝ → ℝ) (S K T r sigma : ℝ) :
    OptionKind → ℝ
  | OptionKind.call =>
      (-(S * pdf (calculate_d1 S K T r sigma) * sigma) / (2 * Real.sqrt T) +
        -(r * K * Real.exp (-(r * T)) * cdf (calculate_d2 S K T r sigma))) / 365
  | OptionKind.put =>
      (-(S * pdf (calculate_d1 S K T r sigma) * sigma) / (2 * Real.sqrt T) +
        r * K * Real.exp (-(r * T)) * cdf (-(calculate_d2 S K T r sigma))) / 365

/-- Function `calculate_rho` (per 1% rate change, divided by 100). -/
noncomputable def calculate_rho (cdf : ℝ → ℝ) (S K T r sigma : ℝ) :
    OptionKind → ℝ
  | OptionKind.call =>
      K * T * Real.exp (-(r * T)) * cdf (calculate_d2 S K T r sigma) / 100
  | OptionKind.put =>
      -(K * T) * Real.exp (-(r * T)) * cdf (-(calculate_d2 S K T r sigma)) / 100

/-- The five per-option Greek columns written by
`calculate_greeks_from_surface`; `none` is the NaN the columns are
initialised with. -/
structure GreeksRow where
  bs_delta : Option ℝ
  bs_gamma : Option ℝ
  bs_vega : Option ℝ
  bs_theta : Option ℝ
  bs_rho : Option ℝ

/-- The numerical-stability guard `1/24/365` years (one hour). -/
def oneHourYears : ℚ := 1 / 24 / 365

/-- Per-row Greek assignment of `calculate_greeks_from_surface`: rows with
`tte_years > 1/24/365` (the `valid_mask`) get all five Greeks from the
closed-form functions at the row's option type; all other rows keep the NaN
initialisation. -/
noncomputable def calculate_greeks_row (cdf pdf : ℝ → ℝ) (S r : ℝ) (q : Quote)
    (sigma : ℝ) : GreeksRow :=
  if oneHourYears < q.tte_years then
    ⟨some (calculate_delta cdf S (q.strike : ℝ) (q.tte_years : ℝ) r sigma q.option_type),
     some (calculate_gamma pdf S (q.strike : ℝ) (q.tte_years : ℝ) r sigma),
     some (calculate_vega pdf S (q.strike : ℝ) (q.tte_years : ℝ) r sigma),
     some (calculate_theta cdf pdf S (q.strike : ℝ) (q.tte_years : ℝ) r sigma q.option_type),
     some (calculate_rho cdf S (q.strike : ℝ) (q.tte_years : ℝ) r sigma q.option_type)⟩
  else ⟨none, none, none, none, none⟩

/-! ### Surface interpolation step of the Greeks engine (greeks.py) -/

/-- Model of `np.clip x lo hi = minimum(hi, maximum(lo, x))`. -/
noncomputable def clipval (x lo hi : ℝ) : ℝ := min hi (max lo x)

/-- One cell of the regular-grid resample `iv_grid`: the mesh value at the
first raveled position whose coordinate pair equals the cell's, else the 0.0
the array was initialised with (`np.zeros`). `logRav`, `tteRav`, `ivRav` are
the row-major raveled coordinate and value meshes. -/
def iv_grid_cell (logRav tteRav : List ℚ) (ivRav : List ℝ) (x t : ℚ) : ℝ :=
  match ((logRav.zip tteRav).zip ivRav).find?
      (fun p => decide (p.1.1 = x ∧ p.1.2 = t)) with
  | some p => p.2
  | none => 0

/-- The query point the engine hands to the interpolator for option `q`:
`log(strike / underlying)` and `tte_years`, both clipped to the min/max of
the unique coordinate lists `logU`, `tteU`. -/
noncomputable def greeksQueryPoint (logU tteU : List ℚ) (S : ℝ) (q : Quote) :
    ℝ × ℝ :=
  (clipval (Real.log ((q.strike : ℝ) / S)) ((listMin logU : ℚ) : ℝ)
     ((listMax logU : ℚ) : ℝ),
   clipval ((q.tte_years : ℚ) : ℝ) ((listMin tteU : ℚ) : ℝ)
     ((listMax tteU : ℚ) : ℝ))

/-- The `smoothed_iv` column for one option: interpolate at the clipped query
point; a NaN interpolation result (`none`) falls back to the option's own raw
`mark_iv`. `interp` abstracts `RegularGridInterpolator.__call__`. -/
noncomputable def smoothed_iv (interp : ℝ × ℝ → Option ℝ)
    (logU tteU : List ℚ) (S : ℝ) (q : Quote) : ℝ :=
  match interp (greeksQueryPoint logU tteU S q) with
  | some v => v
  | none => (q.mark_iv : ℝ)

/-! ### Theorems -/

/-- Helper: the distinct sorted expiration list is strictly increasing. -/
theorem expirationsSorted_pairwise_lt (df : List Quote) :
    (expirationsSorted df).Pairwise (· < ·) := by
  have hs : (expirationsSorted df).Sorted (· ≤ ·) :=
    List.sorted_insertionSort (· ≤ ·) ((df.map Quote.tte_years).dedup)
  have hn : (expirationsSorted df).Nodup :=
    ((List.perm_insertionSort (· ≤ ·) ((df.map Quote.tte_years).dedup)).nodup_iff).2
      (List.nodup_dedup (df.map Quote.tte_years))
  exact hs.lt_of_le hn

/-- Helper: the fitted expiration keys are strictly increasing. -/
theorem fittedTtes_pairwise_lt (df : List Quote) :
    (fittedTtes df).Pairwise (· < ·) :=
  (expirationsSorted_pairwise_lt df).filter _

/-- Claim C1: for every input quote table, the SVI builder fits one
parameter set per distinct `tte_years` value with at least 5 quotes (silently
skipping every expiration with fewer), and its IV mesh has exactly one row per
fitted expiration, rows ordered by strictly increasing time-to-expiry, each
row holding `grid_size` columns on the grid spanning the observed
log-moneyness range, with IV recovered as `sqrt(w(k) / T)`. -/
theorem c1_svi_surface_structure (fit : SviFit) (df : List Quote)
    (grid_size : ℕ) :
    (create_svi_surface fit df grid_size).svi_params.map Prod.fst = fittedTtes df
    ∧ fittedTtes df = (expirationsSorted df).filter
        (fun t => decide (5 ≤ (quotesAtTte df t).length))
    ∧ ((create_svi_surface fit df grid_size).svi_params.map Prod.fst).Pairwise (· < ·)
    ∧ (create_svi_surface fit df grid_size).iv_surface.length = (fittedTtes df).length
    ∧ (create_svi_surface fit df grid_size).iv_surface.map List.length
        = List.replicate (fittedTtes df).length grid_size
    ∧ (create_svi_surface fit df grid_size).iv_surface
        = (svi_params_list fit df).map (fun tp =>
            (linspace (listMin (df.map Quote.log_moneyness))
              (listMax (df.map Quote.log_moneyness)) grid_size).map (fun k : ℚ =>
              Real.sqrt (svi_parametrization (k : ℝ) tp.2.a tp.2.b tp.2.rho
                tp.2.m tp.2.sigma / (tp.1 : ℝ)))) := by
  have hfst : (create_svi_surface fit df grid_size).svi_params.map Prod.fst
      = fittedTtes df := by
    unfold create_svi_surface svi_params_list
    rw [List.map_map]
    exact List.map_id (fittedTtes df)
  refine ⟨hfst, rfl, ?_, ?_, ?_, rfl⟩
  · rw [hfst]
    exact fittedTtes_pairwise_lt df
  · simp [create_svi_surface, svi_params_list]
  · have hlen : (create_svi_surface fit df grid_size).iv_surface.map List.length
        = (svi_params_list fit df).map (fun _ => grid_size) := by
      simp [create_svi_surface, List.map_map, Function.comp_def, List.length_map,
        linspace_length]
    rw [hlen, List.map_const', svi_params_list, List.length_map]

/-- Claim C10: if no expiration slice has at least 5 quotes, the SVI builder
returns without raising: the three meshes have zero rows (an empty numpy
array of shape 0 by `grid_size`), and the parameter map is empty. -/
theorem c10_svi_no_fitted_slices (fit : SviFit) (df : List Quote)
    (grid_size : ℕ)
    (h : ∀ t ∈ expirationsSorted df, (quotesAtTte df t).length < 5) :
    (create_svi_surface fit df grid_size).nrows = 0
    ∧ (create_svi_surface fit df grid_size).ncols = grid_size
    ∧ (create_svi_surface fit df grid_size).log_moneyness_mesh = []
    ∧ (create_svi_surface fit df grid_size).tte_mesh = []
    ∧ (create_svi_surface fit df grid_size).iv_surface = []
    ∧ (create_svi_surface fit df grid_size).svi_params = [] := by
  have hnil : fittedTtes df = [] := by
    rw [fittedTtes, List.filter_eq_nil_iff]
    intro t ht
    simp only [decide_eq_true_eq, not_le]
    exact h t ht
  refine ⟨?_, ?_, ?_, ?_, ?_, ?_⟩ <;>
    simp [create_svi_surface, svi_params_list, hnil, linspace_length]

/-- Witness for C10 at a one-quote table (its only slice has 1 < 5 quotes)
and the default grid size 50. -/
theorem c10_witness :
    (create_svi_surface (fun _ _ _ => ⟨0, 0, 0, 0, 0⟩)
        [⟨1, OptionKind.call, 1/2, 1, 0, 1, 365⟩] 50).nrows = 0
    ∧ (create_svi_surface (fun _ _ _ => ⟨0, 0, 0, 0, 0⟩)
        [⟨1, OptionKind.call, 1/2, 1, 0, 1, 365⟩] 50).svi_params = [] := by
  have h := c10_svi_no_fitted_slices (fun _ _ _ => ⟨0, 0, 0, 0, 0⟩)
    [⟨1, OptionKind.call, 1/2, 1, 0, 1, 365⟩] 50
    (by
      intro t ht
      simp [expirationsSorted, List.dedup, List.pwFilter, List.insertionSort,
        List.orderedInsert, quotesAtTte] at ht ⊢
      subst ht
      norm_num [List.filter])
  exact ⟨h.1, h.2.2.2.2.2⟩

/-- Claim C6: for every SVI parameter tuple inside the fit bounds
(`a >= 0`, `b >= 0`, `rho` in [-1, 1], `sigma >= 0.01`) and every
log-moneyness `k`, the SVI total variance `w(k)` is non-negative, so for
`T > 0` the mesh value `sqrt(w(k)/T)` is defined (its radicand is
non-negative, so its square recovers `w(k)/T`) and non-negative. -/
theorem c6_svi_variance_nonneg (k a b rho m sigma T : ℝ)
    (ha : 0 ≤ a) (hb : 0 ≤ b) (hr1 : -1 ≤ rho) (hr2 : rho ≤ 1)
    (hsig : 1 / 100 ≤ sigma) (hT : 0 < T) :
    0 ≤ svi_parametrization k a b rho m sigma
    ∧ 0 ≤ Real.sqrt (svi_parametrization k a b rho m sigma / T)
    ∧ Real.sqrt (svi_parametrization k a b rho m sigma / T) ^ 2
        = svi_parametrization k a b rho m sigma / T := by
  have habs : |k - m| ≤ Real.sqrt ((k - m) ^ 2 + sigma ^ 2) := by
    rw [← Real.sqrt_sq_eq_abs]
    apply Real.sqrt_le_sqrt
    nlinarith [sq_nonneg sigma]
  have hmul : |rho * (k - m)| ≤ |k - m| := by
    rw [abs_mul]
    have h1 : |rho| ≤ 1 := abs_le.mpr ⟨hr1, hr2⟩
    nlinarith [abs_nonneg (k - m), abs_nonneg rho]
  have hkey : 0 ≤ rho * (k - m) + Real.sqrt ((k - m) ^ 2 + sigma ^ 2) := by
    nlinarith [neg_abs_le (rho * (k - m))]
  have hw : 0 ≤ svi_parametrization k a b rho m sigma :=
    add_nonneg ha (mul_nonneg hb hkey)
  exact ⟨hw, Real.sqrt_nonneg _, Real.sq_sqrt (div_nonneg hw hT.le)⟩

/-- Witness for C6 at `k = 3`, `(a, b, rho, m, sigma) = (0, 1, 1, 0, 4)`,
`T = 1`: the radicand is the perfect square 25, so the conclusion is the
concrete fact `0 <= 8` together with `sqrt 8 ^ 2 = 8`. -/
theorem c6_witness :
    0 ≤ svi_parametrization 3 0 1 1 0 4
    ∧ 0 ≤ Real.sqrt (svi_parametrization 3 0 1 1 0 4 / 1)
    ∧ Real.sqrt (svi_parametrization 3 0 1 1 0 4 / 1) ^ 2
        = svi_parametrization 3 0 1 1 0 4 / 1 :=
  c6_svi_variance_nonneg 3 0 1 1 0 4 1 (by norm_num) (by norm_num)
    (by norm_num) (by norm_num) (by norm_num) (by norm_num)

/-- Claim C3 counterexample: a call with time-to-expiry exactly one hour
(`tte_years = 1/24/365`, i.e. at the threshold, not below it) gets no Greeks:
the `valid_mask` test is the strict `T > 1/24/365`, so the claim that rows
"at or above" the threshold are assigned fails at equality. -/
theorem c3_counterexample :
    (⟨1, OptionKind.call, 1/2, 1, 0, 1/24/365, 1/24⟩ : Quote).tte_years
      = oneHourYears
    ∧ calculate_greeks_row (fun _ => 0) (fun _ => 0) 1 0
        ⟨1, OptionKind.call, 1/2, 1, 0, 1/24/365, 1/24⟩ (1/2)
      = ⟨none, none, none, none, none⟩ := by
  refine ⟨rfl, ?_⟩
  rw [calculate_greeks_row, if_neg]
  exact lt_irrefl oneHourYears

/-- Claim C3 (amended): every option row with time-to-expiry strictly above
one hour (`1/24/365` years) gets all five Greeks assigned, whatever its
option type; every row at or below the threshold keeps all five undefined. -/
theorem c3_greeks_threshold (cdf pdf : ℝ → ℝ) (S r : ℝ) (q : Quote)
    (sigma : ℝ) :
    (oneHourYears < q.tte_years →
      (calculate_greeks_row cdf pdf S r q sigma).bs_delta.isSome = true
      ∧ (calculate_greeks_row cdf pdf S r q sigma).bs_gamma.isSome = true
      ∧ (calculate_greeks_row cdf pdf S r q sigma).bs_vega.isSome = true
      ∧ (calculate_greeks_row cdf pdf S r q sigma).bs_theta.isSome = true
      ∧ (calculate_greeks_row cdf pdf S r q sigma).bs_rho.isSome = true)
    ∧ (q.tte_years ≤ oneHourYears →
      calculate_greeks_row cdf pdf S r q sigma
        = ⟨none, none, none, none, none⟩) := by
  constructor
  · intro h
    simp [calculate_greeks_row, h]
  · intro h
    simp [calculate_greeks_row, not_lt.mpr h]

/-- Witness for C3 (amended): a one-year call gets all five Greeks; a
zero-tte put keeps all five undefined. -/
theorem c3_witness :
    ((calculate_greeks_row (fun _ => 0) (fun _ => 0) 1 0
        ⟨1, OptionKind.call, 1/2, 1, 0, 1, 365⟩ (1/2)).bs_delta.isSome = true
      ∧ (calculate_greeks_row (fun _ => 0) (fun _ => 0) 1 0
        ⟨1, OptionKind.call, 1/2, 1, 0, 1, 365⟩ (1/2)).bs_gamma.isSome = true)
    ∧ calculate_greeks_row (fun _ => 0) (fun _ => 0) 1 0
        ⟨1, OptionKind.put, 1/2, 1, 0, 0, 0⟩ (1/2)
      = ⟨none, none, none, none, none⟩ := by
  have h1 := (c3_greeks_threshold (fun _ => 0) (fun _ => 0) 1 0
    ⟨1, OptionKind.call, 1/2, 1, 0, 1, 365⟩ (1/2)).1
    (by norm_num [oneHourYears])
  have h2 := (c3_greeks_threshold (fun _ => 0) (fun _ => 0) 1 0
    ⟨1, OptionKind.put, 1/2, 1, 0, 0, 0⟩ (1/2)).2
    (by norm_num [oneHourYears])
  exact ⟨⟨h1.1, h1.2.1⟩, h2⟩

/-- Claim C5: for positive spot, strike, expiry and vol, call delta minus put
delta is exactly 1, and the Greeks engine assigns identical gamma and vega to
a call row and a put row with the same `(S, K, T, r, sigma)` (the gamma and
vega formulas take no option type). -/
theorem c5_put_call_parity (cdf pdf : ℝ → ℝ) (S r sigma : ℝ)
    (K mi mon lm T td : ℚ)
    (hS : 0 < S) (hK : 0 < K) (hT : 0 < T) (hsigma : 0 < sigma) :
    calculate_delta cdf S (K : ℝ) (T : ℝ) r sigma OptionKind.call
      - calculate_delta cdf S (K : ℝ) (T : ℝ) r sigma OptionKind.put = 1
    ∧ (calculate_greeks_row cdf pdf S r
        ⟨K, OptionKind.call, mi, mon, lm, T, td⟩ sigma).bs_gamma
      = (calculate_greeks_row cdf pdf S r
        ⟨K, OptionKind.put, mi, mon, lm, T, td⟩ sigma).bs_gamma
    ∧ (calculate_greeks_row cdf pdf S r
        ⟨K, OptionKind.call, mi, mon, lm, T, td⟩ sigma).bs_vega
      = (calculate_greeks_row cdf pdf S r
        ⟨K, OptionKind.put, mi, mon, lm, T, td⟩ sigma).bs_vega := by
  refine ⟨?_, ?_, ?_⟩
  · rw [calculate_delta, calculate_delta]
    ring
  · by_cases h : oneHourYears < T <;> simp [calculate_greeks_row, h]
  · by_cases h : oneHourYears < T <;> simp [calculate_greeks_row, h]

/-- Witness for C5 at `S = 1, K = 1, T = 1, r = 0, sigma = 1` with the
identity in place of the normal CDF and PDF. -/
theorem c5_witness :
    calculate_delta (fun x => x) 1 ((1 : ℚ) : ℝ) ((1 : ℚ) : ℝ) 0 1
        OptionKind.call
      - calculate_delta (fun x => x) 1 ((1 : ℚ) : ℝ) ((1 : ℚ) : ℝ) 0 1
        OptionKind.put = 1
    ∧ (calculate_greeks_row (fun x => x) (fun x => x) 1 0
        ⟨1, OptionKind.call, 1/2, 1, 0, 1, 365⟩ 1).bs_gamma
      = (calculate_greeks_row (fun x => x) (fun x => x) 1 0
        ⟨1, OptionKind.put, 1/2, 1, 0, 1, 365⟩ 1).bs_gamma
    ∧ (calculate_greeks_row (fun x => x) (fun x => x) 1 0
        ⟨1, OptionKind.call, 1/2, 1, 0, 1, 365⟩ 1).bs_vega
      = (calculate_greeks_row (fun x => x) (fun x => x) 1 0
        ⟨1, OptionKind.put, 1/2, 1, 0, 1, 365⟩ 1).bs_vega :=
  c5_put_call_parity (fun x => x) (fun x => x) 1 0 1 1 (1/2) 1 0 1 365
    (by norm_num) (by norm_num) (by norm_num) (by norm_num)

/-- Claim C4: the query point of every option is clamped into the
interpolator domain (the min/max of the unique surface coordinates), and the
stored smoothed IV is the option's own raw `mark_iv` exactly when the
interpolation result is NaN, and the interpolated value when it is defined. -/
theorem c4_smoothed_iv_clip_fallback (interp : ℝ × ℝ → Option ℝ)
    (logU tteU : List ℚ) (S : ℝ) (q : Quote)
    (hlm : listMin logU ≤ listMax logU) (ht : listMin tteU ≤ listMax tteU) :
    (((listMin logU : ℚ) : ℝ) ≤ (greeksQueryPoint logU tteU S q).1
      ∧ (greeksQueryPoint logU tteU S q).1 ≤ ((listMax logU : ℚ) : ℝ)
      ∧ ((listMin tteU : ℚ) : ℝ) ≤ (greeksQueryPoint logU tteU S q).2
      ∧ (greeksQueryPoint logU tteU S q).2 ≤ ((listMax tteU : ℚ) : ℝ))
    ∧ (interp (greeksQueryPoint logU tteU S q) = none →
        smoothed_iv interp logU tteU S q = (q.mark_iv : ℝ))
    ∧ (∀ v : ℝ, interp (greeksQueryPoint logU tteU S q) = some v →
        smoothed_iv interp logU tteU S q = v) := by
  have hlm' : ((listMin logU : ℚ) : ℝ) ≤ ((listMax logU : ℚ) : ℝ) := by
    exact_mod_cast hlm
  have ht' : ((listMin tteU : ℚ) : ℝ) ≤ ((listMax tteU : ℚ) : ℝ) := by
    exact_mod_cast ht
  refine ⟨⟨?_, ?_, ?_, ?_⟩, ?_, ?_⟩
  · exact le_min hlm' (le_max_left _ _)
  · exact min_le_left _ _
  · exact le_min ht' (le_max_left _ _)
  · exact min_le_left _ _
  · intro h
    rw [smoothed_iv, h]
  · intro v h
    rw [smoothed_iv, h]

/-- Witness for C4: a singleton coordinate domain, once with an interpolator
that always yields NaN (fallback to the raw quote) and once with one that
yields 7 (the interpolated value is stored). -/
theorem c4_witness :
    smoothed_iv (fun _ => none) [0] [1] 1
        ⟨1, OptionKind.call, 1/2, 1, 0, 1, 365⟩
      = (((1 : ℚ) / 2 : ℚ) : ℝ)
    ∧ smoothed_iv (fun _ => some 7) [0] [1] 1
        ⟨1, OptionKind.call, 1/2, 1, 0, 1, 365⟩ = 7 := by
  constructor
  · exact (c4_smoothed_iv_clip_fallback (fun _ => none) [0] [1] 1
      ⟨1, OptionKind.call, 1/2, 1, 0, 1, 365⟩
      (by norm_num [listMin, listMax]) (by norm_num [listMin, listMax])).2.1 rfl
  · exact (c4_smoothed_iv_clip_fallback (fun _ => some 7) [0] [1] 1
      ⟨1, OptionKind.call, 1/2, 1, 0, 1, 365⟩
      (by norm_num [listMin, listMax]) (by norm_num [listMin, listMax])).2.2 7 rfl

/-- Claim C9: a regular-grid cell whose coordinate pair occurs nowhere in the
raveled mesh keeps the 0.0 it was initialised with, so the interpolator sees
the defined value 0.0 there rather than NaN; and the raw-quote fallback never
replaces a defined interpolation result, even a zero one. -/
theorem c9_resample_missing_cell_zero (logRav tteRav : List ℚ) (ivRav : List ℝ)
    (x t : ℚ)
    (h : ∀ p ∈ logRav.zip tteRav, ¬(p.1 = x ∧ p.2 = t)) :
    iv_grid_cell logRav tteRav ivRav x t = 0
    ∧ (∀ (interp : ℝ × ℝ → Option ℝ) (logU tteU : List ℚ) (S : ℝ) (q : Quote),
        interp (greeksQueryPoint logU tteU S q) = some 0 →
        smoothed_iv interp logU tteU S q = 0) := by
  constructor
  · rw [iv_grid_cell]
    have hnone : ((logRav.zip tteRav).zip ivRav).find?
        (fun p => decide (p.1.1 = x ∧ p.1.2 = t)) = none := by
      rw [List.find?_eq_none]
      intro p hp
      simp only [decide_eq_true_eq]
      exact h p.1 (List.of_mem_zip hp).1
    rw [hnone]
  · intro interp logU tteU S q hz
    rw [smoothed_iv, hz]

/-- Witness for C9: the cell `(2, 1)` is absent from the one-point mesh
`[(0, 1)]` with value 5, so the resampled grid holds 0 there. -/
theorem c9_witness : iv_grid_cell [0] [1] [5] 2 1 = 0 :=
  (c9_resample_missing_cell_zero [0] [1] [5] 2 1 (by norm_num)).1

/-- Claim C7: for every quote table, the term-structure slope equals
`atm_iv_90d - atm_iv_30d` exactly whenever both are defined, is NaN whenever
either is NaN, and is what the metrics mapping stores under its key. -/
theorem c7_term_structure_slope (df : List Quote) :
    (∀ a30 a90 : ℝ, atm_iv df 30 = some a30 → atm_iv df 90 = some a90 →
      term_structure_slope df = some (a90 - a30))
    ∧ (atm_iv df 30 = none ∨ atm_iv df 90 = none →
      term_structure_slope df = none)
    ∧ (calculate_surface_metrics df).lookup "term_structure_slope"
      = some (term_structure_slope df) := by
  refine ⟨?_, ?_, ?_⟩
  · intro a30 a90 h30 h90
    rw [term_structure_slope, h30, h90]
  · intro h
    rcases h with h | h
    · rw [term_structure_slope, h]
    · rw [term_structure_slope, h]
      rcases atm_iv df 30 with _ | a30 <;> rfl
  · simp [calculate_surface_metrics, List.lookup]

/-- Witness for C7: a table whose 30-day ATM bucket holds IV 1/2 and whose
90-day bucket holds IV 3/5 has slope 1/10; the empty table has NaN slope. -/
theorem c7_witness :
    term_structure_slope
        [⟨1, OptionKind.call, 1/2, 1, 0, 30/365, 30⟩,
         ⟨1, OptionKind.call, 3/5, 1, 0, 90/365, 90⟩]
      = some ((((3 : ℚ)/5 : ℚ) : ℝ) - (((1 : ℚ)/2 : ℚ) : ℝ))
    ∧ term_structure_slope [] = none := by
  constructor
  · refine (c7_term_structure_slope
      [⟨1, OptionKind.call, 1/2, 1, 0, 30/365, 30⟩,
       ⟨1, OptionKind.call, 3/5, 1, 0, 90/365, 90⟩]).1
      (((1 : ℚ)/2 : ℚ) : ℝ) (((3 : ℚ)/5 : ℚ) : ℝ) ?_ ?_
    · norm_num [atm_iv, atmQuotes, tenorQuotes, listMean, List.filter]
    · norm_num [atm_iv, atmQuotes, tenorQuotes, listMean, List.filter]
  · exact (c7_term_structure_slope []).2.1 (Or.inl rfl)

/-- Claim C8: the metrics computation on an empty quote table returns the
mapping with every key present and NaN, raising nothing; more generally an
ATM bucket with no matching quotes yields NaN, and the 25-delta skew is NaN
whenever either of its two selections is empty. -/
theorem c8_empty_metrics :
    calculate_surface_metrics []
      = [("atm_iv_7d", none), ("atm_iv_30d", none), ("atm_iv_60d", none),
         ("atm_iv_90d", none), ("atm_iv_180d", none), ("skew_25d", none),
         ("term_structure_slope", none), ("iv_mean", none),
         ("iv_median", none), ("iv_std", none), ("iv_min", none),
         ("iv_max", none)]
    ∧ (∀ (df : List Quote) (tenor : ℚ), atmQuotes df tenor = [] →
        atm_iv df tenor = none)
    ∧ (∀ df : List Quote, put25Quotes df = [] ∨ call25Quotes df = [] →
        skew_25d df = none) := by
  refine ⟨rfl, ?_, ?_⟩
  · intro df tenor h
    rw [atm_iv, h]
    rfl
  · intro df h
    rcases h with h | h
    · rw [skew_25d, h]
      rcases listMean ((call25Quotes df).map Quote.mark_iv) with _ | c <;> rfl
    · rw [skew_25d, h]
      rcases listMean ((put25Quotes df).map Quote.mark_iv) with _ | p <;> rfl

/-- Witness for C8: a 100-day quote matches no 7-day ATM bucket, so that
metric is NaN on a nonempty table as well. -/
theorem c8_witness :
    atm_iv [⟨1, OptionKind.call, 1/2, 1, 0, 100/365, 100⟩] 7 = none :=
  c8_empty_metrics.2.1 [⟨1, OptionKind.call, 1/2, 1, 0, 100/365, 100⟩] 7
    (by norm_num [atmQuotes, tenorQuotes, List.filter])


end VolSurface
